import Mathlib

set_option maxRecDepth 4000

/-!
Shallow embedding of the astroport concentrated-liquidity pair contract
(`contracts/pair_concentrated`).  The authoritative source for the
entry points is `contracts/pair_concentrated/src/contract.rs` together with
the validation constants of `contracts/pair_concentrated/src/consts.rs`.
The crate's `math.rs`, `state.rs`, `utils.rs` and the shared
`packages/astroport/src/asset.rs` are absent from the snapshot; the
functions they provide are modelled from the specification and marked
`Modelled from the spec:` in their doc comments.

`Decimal` / `Decimal256` of cosmwasm_std are fixed-point numbers with 18
fractional digits; we embed their (nonnegative) atomics as `Nat`, with the
truncating multiplication and division the library performs.  `Uint128`
amounts are embedded as `Nat`; the checked subtractions of the source map
to explicit comparisons, and Rust's panicking `-` on unsigned types maps
to Nat's truncated subtraction together with the guards the source places
around it.
-/

namespace PairConcentrated

/-- Atomics of a `Decimal256` value (18 fractional digits). -/
abbrev Dec := Nat

/-- `10 ^ 18`, one unit in `Decimal256` atomics. -/
def E18 : Nat := 10 ^ 18

/-- `Decimal256::one()`. -/
def decOne : Dec := E18

/-- Truncating fixed-point multiplication of `Decimal256`. -/
def decMul (a b : Dec) : Dec := a * b / E18

/-- Truncating fixed-point division of `Decimal256` (the source panics on a
zero divisor; every use below is guarded by the contract's invariants). -/
def decDiv (a b : Dec) : Dec := a * E18 / b

/-- `AbsDiff` from astroport's `cosmwasm_ext`: `|a - b|`. -/
def decAbsDiff (a b : Dec) : Dec := max a b - min a b

/-- `Decimal256::from_ratio(n, d)`. -/
def decOfFraction (n d : Nat) : Dec := n * E18 / d

/-- Raw value of `Decimal256Ext::to_uint(precision)`: truncate to an integer
amount carrying `precision` fractional digits. -/
def toUintVal (a : Dec) (prec : Nat) : Nat := a / 10 ^ (18 - prec)

/-- `Decimal256Ext::to_uint(precision)`: fails when the truncated amount does
not fit `Uint128`. -/
def toUintChecked (a : Dec) (prec : Nat) : Except String Nat :=
  if toUintVal a prec < 2 ^ 128 then .ok (toUintVal a prec) else .error "conversion overflow"

/-- `IntegerToDecimal::to_decimal256(precision)` / `with_precision`: a raw
integer amount with `precision` fractional digits as a `Decimal256`.  Asset
precisions are at most 18 (larger ones are rejected when the pair stores
them), so the exponent never clamps on reachable inputs. -/
def uintToDec (n : Nat) (prec : Nat) : Dec := n * 10 ^ (18 - prec)

/-- Integer square root by Newton descent on an explicit fuel, used by the
fixed-point square root of the xcp formula.  Kernel-reducible. -/
def isqrtAux : Nat → Nat → Nat → Nat
  | 0, _, g => g
  | fuel + 1, n, g =>
    let g' := (g + n / g) / 2
    if g' < g then isqrtAux fuel n g' else g

/-- Fixed-point square root: `sqrt a` in `Decimal256` atomics. -/
def decSqrt (a : Dec) : Dec := if a = 0 then 0 else isqrtAux 600 (a * E18) (a * E18)

/-! ## Validation constants, from `consts.rs` (raw atomics as in the source) -/

/-- 0.05 -/
def DEFAULT_SLIPPAGE : Dec := 50000000000000000
/-- 0.5 -/
def MAX_ALLOWED_SLIPPAGE : Dec := 500000000000000000
/-- 0.001 -/
def MIN_FEE : Dec := 1000000000000000
/-- 0.5 -/
def MAX_FEE : Dec := 500000000000000000
/-- 1e-8 -/
def FEE_GAMMA_MIN : Dec := 10000000000
/-- 0.02 -/
def FEE_GAMMA_MAX : Dec := 20000000000000000
def REPEG_PROFIT_THRESHOLD_MIN : Dec := 0
/-- 0.01 -/
def REPEG_PROFIT_THRESHOLD_MAX : Dec := 10000000000000000
/-- 1e-11 -/
def PRICE_SCALE_DELTA_MIN : Dec := 10000000
/-- 1.0 -/
def PRICE_SCALE_DELTA_MAX : Dec := 1000000000000000000
/-- Upper bound of `MA_HALF_TIME_LIMITS` (7 days); the lower bound is 0. -/
def MA_HALF_TIME_MAX : Nat := 7 * 86400
/-- 0.4 -/
def AMP_MIN : Dec := 400000000000000000
/-- 400000 -/
def AMP_MAX : Dec := 400000000000000000000000
/-- 1e-7 -/
def GAMMA_MIN : Dec := 100000000000
/-- 0.02 -/
def GAMMA_MAX : Dec := 20000000000000000
/-- The minimum time interval for updating Amplifier or Gamma. -/
def MIN_AMP_CHANGING_TIME : Nat := 86400
/-- The maximum allowed relative change of Amplifier or Gamma (10%). -/
def MAX_CHANGE : Dec := 100000000000000000
/-- Iterations limit for Newton's method. -/
def MAX_ITER : Nat := 64
/-- An LP token's precision (`contract.rs`). -/
def LP_TOKEN_PRECISION : Nat := 6

/-- Modelled from the spec: `MINIMUM_LIQUIDITY_AMOUNT` lives in the absent
`packages/astroport/src/asset.rs`; it is the fixed minimum-liquidity
reservation locked on the first deposit (anti-inflation-attack floor). -/
def MINIMUM_LIQUIDITY_AMOUNT : Nat := 1000

/-! ## Errors -/

/-- The contract error type (`error.rs` is absent from the snapshot; the
variants are reconstructed from their uses in `contract.rs`, with
`Std msg` standing for `StdError::generic_err(msg)`). -/
inductive ContractError
  | Std (msg : String)
  | Unauthorized
  | InitParamsNotFound
  | InvalidZeroAmount
  | MinimumLiquidityAmountError
  | InvalidNumberOfAssets (n : Nat)
  | InvalidAsset (info : String)
  | PairIsNotMigrated
  | MaxSpreadAssertion
  deriving Repr, DecidableEq

/-! ## Data model -/

/-- `AssetInfo`: a CW20 token contract or a native denom. -/
inductive AssetInfo
  | token (contract_addr : String)
  | native (denom : String)
  deriving Repr, DecidableEq

/-- `AssetInfo::is_native_token`. -/
def AssetInfo.is_native_token : AssetInfo → Bool
  | .token _ => false
  | .native _ => true

/-- Display form of an asset info (used in error payloads). -/
def AssetInfo.display : AssetInfo → String
  | .token a => a
  | .native d => d

/-- Modelled from the spec: address validation of the execution environment
(`addr_validate_to_lower`); an address is valid when nonempty and already
lowercase (no uppercase ASCII letter). -/
def validAddr (s : String) : Bool :=
  s ≠ "" && s.toList.all fun ch => !(65 ≤ ch.toNat && ch.toNat ≤ 90)

/-- `AssetInfo::check`: validates the embedded address / denom. -/
def AssetInfo.checkB : AssetInfo → Bool
  | .token a => validAddr a
  | .native d => d ≠ ""

/-- Amp/gamma pair. -/
structure AmpGamma where
  amp : Dec
  gamma : Dec
  deriving Repr, DecidableEq

/-- Modelled from the spec: `state.rs` is absent.  `AmpGamma` derives Rust's
`Default`, which zero-initializes both `Decimal` fields. -/
def AmpGamma.default : AmpGamma := { amp := 0, gamma := 0 }

/-- Modelled from the spec: `AmpGamma::new` validates both values against
`[AMP_MIN, AMP_MAX]` and `[GAMMA_MIN, GAMMA_MAX]` (bounds from `consts.rs`)
and fails outside them. -/
def AmpGamma.new (amp gamma : Dec) : Except ContractError AmpGamma :=
  if AMP_MIN ≤ amp ∧ amp ≤ AMP_MAX ∧ GAMMA_MIN ≤ gamma ∧ gamma ≤ GAMMA_MAX then
    .ok { amp := amp, gamma := gamma }
  else
    .error (.Std "Incorrect pool parameters")

/-- Governance-set pool parameters. -/
structure PoolParams where
  mid_fee : Dec
  out_fee : Dec
  fee_gamma : Dec
  repeg_profit_threshold : Dec
  min_price_scale_delta : Dec
  ma_half_time : Nat
  deriving Repr, DecidableEq

/-- `PoolParams::default()` (all fields are overwritten by `update_params`
before first use in `instantiate`). -/
def PoolParams.default : PoolParams :=
  { mid_fee := 0, out_fee := 0, fee_gamma := 0, repeg_profit_threshold := 0,
    min_price_scale_delta := 0, ma_half_time := 0 }

/-- The update payload for `PoolParams::update_params`; `instantiate` fills
every field from the supplied `ConcentratedPoolParams`. -/
structure UpdatePoolParams where
  mid_fee : Dec
  out_fee : Dec
  fee_gamma : Dec
  repeg_profit_threshold : Dec
  min_price_scale_delta : Dec
  ma_half_time : Nat
  deriving Repr, DecidableEq

/-- Modelled from the spec: `PoolParams::update_params` validates
`MIN_FEE <= mid_fee <= out_fee <= MAX_FEE`, `fee_gamma`,
`repeg_profit_threshold`, `min_price_scale_delta` and `ma_half_time`
against the bound ranges of `consts.rs` and fails if any bound is
violated. -/
def PoolParams.update_params (_pp : PoolParams) (u : UpdatePoolParams) :
    Except ContractError PoolParams :=
  if MIN_FEE ≤ u.mid_fee ∧ u.mid_fee ≤ u.out_fee ∧ u.out_fee ≤ MAX_FEE ∧
      FEE_GAMMA_MIN ≤ u.fee_gamma ∧ u.fee_gamma ≤ FEE_GAMMA_MAX ∧
      REPEG_PROFIT_THRESHOLD_MIN ≤ u.repeg_profit_threshold ∧
      u.repeg_profit_threshold ≤ REPEG_PROFIT_THRESHOLD_MAX ∧
      PRICE_SCALE_DELTA_MIN ≤ u.min_price_scale_delta ∧
      u.min_price_scale_delta ≤ PRICE_SCALE_DELTA_MAX ∧
      u.ma_half_time ≤ MA_HALF_TIME_MAX then
    .ok { mid_fee := u.mid_fee, out_fee := u.out_fee, fee_gamma := u.fee_gamma,
          repeg_profit_threshold := u.repeg_profit_threshold,
          min_price_scale_delta := u.min_price_scale_delta,
          ma_half_time := u.ma_half_time }
  else
    .error (.Std "Incorrect pool parameters")

/-- Price state of the pool. -/
structure PriceState where
  oracle_price : Dec
  last_price : Dec
  price_scale : Dec
  last_price_update : Nat
  xcp_profit : Dec
  xcp : Dec
  deriving Repr, DecidableEq

/-- Pool state: the amp/gamma promotion pair with its window, and the price
state. -/
structure PoolState where
  initial : AmpGamma
  future : AmpGamma
  future_time : Nat
  initial_time : Nat
  price_state : PriceState
  deriving Repr, DecidableEq

/-- Pair metadata (asset bookkeeping fields of `PairInfo` that the claims
touch). -/
structure PairInfo where
  contract_addr : String
  liquidity_token : String
  asset_infos : List AssetInfo
  deriving Repr, DecidableEq

/-- The contract configuration persisted under `CONFIG`. -/
structure Config where
  pair_info : PairInfo
  factory_addr : String
  block_time_last : Nat
  cumulative_price0 : Nat
  cumulative_price1 : Nat
  pool_params : PoolParams
  pool_state : PoolState
  owner : Option String
  deriving Repr, DecidableEq

/-! ## Invariant solver and xcp (spec §4.1; `math.rs` is absent) -/

/-- Modelled from the spec: `math.rs` is absent from the snapshot.  §4.1:
`calc_d` rejects degenerate (zero) balances before solving and otherwise
returns the Newton-converged invariant D of the two-asset curve.  Every
claim settled in this file depends only on this interface — failure on a
degenerate pool, a converged value otherwise — and never on the solved
value itself, so the invariant is modelled by its amplification-limit
constant-sum form `D = x0 + x1`. -/
def calc_d (xs : List Dec) (_amp_gamma : AmpGamma) : Except ContractError Dec :=
  match xs with
  | [x0, x1] =>
    if x0 = 0 ∨ x1 = 0 then .error (.Std "Degenerate pool balances")
    else .ok (x0 + x1)
  | _ => .error (.Std "Degenerate pool balances")

/-- Modelled from the spec: `get_xcp(d, price_scale) = d / (2 * sqrt(price_scale))`,
the virtual capital measure derived from a converged D (§3, §4.1). -/
def get_xcp (d price_scale : Dec) : Dec := decDiv d (2 * decSqrt price_scale)

/-! ## Parameter promotion state machine (spec §4.2; `state.rs` is absent) -/

/-- Modelled from the spec: `get_amp_gamma(now)` returns `initial` unchanged
if `now <= initial_time`, `future` unchanged if `now >= future_time`, else
the independent linear interpolation of `amp` and `gamma` over
`[initial_time, future_time]` (§4.2). -/
def PoolState.get_amp_gamma (s : PoolState) (now : Nat) : AmpGamma :=
  if now ≤ s.initial_time then s.initial
  else if s.future_time ≤ now then s.future
  else
    let span := s.future_time - s.initial_time
    let dt := now - s.initial_time
    { amp := (s.initial.amp * (span - dt) + s.future.amp * dt) / span,
      gamma := (s.initial.gamma * (span - dt) + s.future.gamma * dt) / span }

/-- The payload of `ConcentratedPoolUpdateParams::Promote`. -/
structure PromoteParams where
  next_amp : Dec
  next_gamma : Dec
  future_time : Nat
  deriving Repr, DecidableEq

/-- Modelled from the spec: `promote_params` is legal only from the Stable
state (the previous promotion window has elapsed), requires
`next_time - now >= MIN_AMP_CHANGING_TIME`, both values inside their bound
ranges, and the relative change from the current effective value within
`MAX_CHANGE`; it rejects otherwise (§4.2). -/
def PoolState.promote_params (s : PoolState) (now : Nat) (p : PromoteParams) :
    Except ContractError PoolState :=
  if now < s.future_time then .error (.Std "Promotion already in progress")
  else if p.future_time < now + MIN_AMP_CHANGING_TIME then
    .error (.Std "Promotion window is too short")
  else
    match AmpGamma.new p.next_amp p.next_gamma with
    | .error e => .error e
    | .ok next =>
      let cur := s.get_amp_gamma now
      if decDiv (decAbsDiff next.amp cur.amp) cur.amp ≤ MAX_CHANGE ∧
          decDiv (decAbsDiff next.gamma cur.gamma) cur.gamma ≤ MAX_CHANGE then
        .ok { s with initial := cur, initial_time := now,
                     future := next, future_time := p.future_time }
      else .error (.Std "Relative change is too big")

/-- Modelled from the spec: `stop_promotion(now)` freezes
`initial = future = interpolated_value_at(now)` and `future_time = now`
(§4.2). -/
def PoolState.stop_promotion (s : PoolState) (now : Nat) : PoolState :=
  let cur := s.get_amp_gamma now
  { s with initial := cur, future := cur, initial_time := now, future_time := now }

/-! ## Fee model (spec §4.4; `state.rs` / `utils.rs` are absent) -/

/-- Modelled from the spec: `compute_fee` blends `mid_fee` and `out_fee` with
the normalized imbalance coefficient `g = skew / (skew + fee_gamma)`, where
the skew is zero at perfect balance and grows with deviation;
`fee = mid_fee + (out_fee - mid_fee) * g` (§4.4). -/
def PoolParams.fee (pp : PoolParams) (xs : List Dec) : Dec :=
  match xs with
  | [x0, x1] =>
    if x0 + x1 = 0 then pp.mid_fee
    else
      let skew := decDiv (decAbsDiff x0 x1) (x0 + x1)
      let g := decDiv skew (skew + pp.fee_gamma)
      pp.mid_fee + decMul (pp.out_fee - pp.mid_fee) g
  | _ => pp.mid_fee

/-- Modelled from the spec: `utils.rs` is absent.  The provision fee is the
pool fee rate at the current balances scaled by how far the deposit
deviates from an even split — zero for a perfectly balanced deposit (§4.6,
reusing the fee model's imbalance coefficient). -/
def calc_provide_fee (deposits xp : List Dec) (pp : PoolParams) : Dec :=
  match deposits with
  | [d0, d1] =>
    let s := d0 + d1
    if s = 0 then 0
    else decMul (pp.fee xp) (decDiv (decAbsDiff d0 (s / 2) + decAbsDiff d1 (s / 2)) s)
  | _ => 0

/-! ## Price / repeg engine (spec §4.3; `state.rs` is absent) -/

/-- Modelled from the spec: the half-pow routine approximating the EMA decay
factor `0.5 ^ (elapsed / ma_half_time)` in fixed point (§4.3 step 1); we
halve per completed half-life and interpolate the remainder linearly.  Its
value always lies in `[0, 1]`. -/
def halfpow (t T : Nat) : Dec :=
  if T = 0 then 0
  else (decOne / 2 ^ (t / T)) * (2 * T - t % T) / (2 * T)

/-- Modelled from the spec: `update_price` (§4.3; `state.rs` is absent).
1. blend the oracle EMA with the trade-implied `last_price` using the
   half-pow decay of the elapsed time;
2. recompute D at the current `price_scale` and derive `xcp_new`;
3. take a candidate price scale stepping toward the new oracle price,
   gated by `min_price_scale_delta`;
4. recompute D and xcp as if the candidate were adopted, and accept it only
   if the resulting `xcp_profit'` is at least
   `xcp_profit * (1 + repeg_profit_threshold)`; otherwise keep the old
   `price_scale` and `xcp_profit` (the oracle EMA is persisted regardless);
5. persist `last_price`, `oracle_price`, `price_scale`, `xcp`,
   `xcp_profit`, `last_price_update`. -/
def PoolState.update_price (s : PoolState) (pp : PoolParams) (now : Nat)
    (_total_share : Dec) (xs : List Dec) (last_price : Dec) :
    Except ContractError PoolState :=
  let p := s.price_state
  let elapsed := now - p.last_price_update
  let decay := halfpow elapsed pp.ma_half_time
  let oracle' := decMul p.oracle_price decay + decMul last_price (decOne - decay)
  let ag := s.get_amp_gamma now
  match calc_d xs ag with
  | .error e => .error e
  | .ok d =>
    let xcp_new := get_xcp d p.price_scale
    let keep : PoolState :=
      { s with price_state :=
          { p with oracle_price := oracle', last_price := last_price,
                   last_price_update := now, xcp := xcp_new } }
    if decDiv (decAbsDiff oracle' p.price_scale) p.price_scale <
        pp.min_price_scale_delta then
      .ok keep
    else
      let candidate := oracle'
      let xs' := [xs.getD 0 0, decDiv (decMul (xs.getD 1 0) candidate) p.price_scale]
      match calc_d xs' ag with
      | .error e => .error e
      | .ok d' =>
        let xcp_cand := get_xcp d' candidate
        let profit_cand := decDiv (decMul p.xcp_profit xcp_cand) xcp_new
        if decMul p.xcp_profit (decOne + pp.repeg_profit_threshold) ≤ profit_cand then
          .ok { s with price_state :=
                  { p with oracle_price := oracle', last_price := last_price,
                           last_price_update := now, price_scale := candidate,
                           xcp := xcp_cand, xcp_profit := profit_cand } }
        else .ok keep

/-! ## Misc helpers of `utils.rs` (absent) -/

/-- Modelled from the spec: `check_asset_infos` validates every asset info
and rejects duplicated assets. -/
def check_asset_infos (infos : List AssetInfo) : Except ContractError Unit :=
  if infos.Nodup ∧ infos.all AssetInfo.checkB then .ok ()
  else .error (.Std "Invalid asset infos")

/-- Modelled from the spec: `get_share_in_assets` returns each pool balance
in exact proportion `amount / total_share` (§4.6 balanced withdrawal). -/
def get_share_in_assets (pools : List Dec) (amount total_share : Nat) : List Dec :=
  let share_part := if total_share = 0 then 0 else decOfFraction amount total_share
  pools.map fun p => decMul p share_part

/-- Modelled from the spec: `check_cw20_in_pool` admits a CW20 hook call only
when the sending token contract is one of the pool's assets. -/
def check_cw20_in_pool (c : Config) (sender : String) : Except ContractError Unit :=
  if AssetInfo.token sender ∈ c.pair_info.asset_infos then .ok ()
  else .error .Unauthorized

/-- Modelled from the spec: `accumulate_prices` is the bookkeeping for
external (TWAP) price accumulation — it advances `block_time_last` and adds
the elapsed-time-weighted price in both directions. -/
def accumulate_prices (now : Nat) (c : Config) (price : Dec) : Config :=
  let dt := now - c.block_time_last
  { c with block_time_last := now,
           cumulative_price0 := c.cumulative_price0 + dt * toUintVal price LP_TOKEN_PRECISION,
           cumulative_price1 := c.cumulative_price1 +
             dt * toUintVal (if price = 0 then 0 else decDiv decOne price) LP_TOKEN_PRECISION }

/-- Modelled from the spec: `before_swap_check` rejects a swap whose offer
amount is zero or whose (offer-subtracted) pool balances are degenerate
(§4.5 failure conditions). -/
def before_swap_check (pools : List Dec) (offer_amount : Dec) :
    Except ContractError Unit :=
  if offer_amount = 0 then .error .InvalidZeroAmount
  else if pools.any (· = 0) then .error (.Std "Insufficient liquidity")
  else .ok ()

/-! ## Instantiation (`contract.rs::instantiate`) -/

/-- The init payload decoded from `msg.init_params`
(`ConcentratedPoolParams`). -/
structure ConcentratedPoolParams where
  amp : Dec
  gamma : Dec
  mid_fee : Dec
  out_fee : Dec
  fee_gamma : Dec
  repeg_profit_threshold : Dec
  min_price_scale_delta : Dec
  price_scale : Dec
  ma_half_time : Nat
  deriving Repr, DecidableEq

/-- Embeds `contract.rs::instantiate` (lines 51–151).  The LP-token
sub-message and cw2 version bookkeeping are execution-environment plumbing
and are not part of the persisted `Config`; `liquidity_token` is filled in
later by the `reply` handler. -/
def instantiate (now : Nat) (contract_addr factory_addr : String)
    (asset_infos : List AssetInfo) (init_params : Option ConcentratedPoolParams) :
    Except ContractError Config :=
  match check_asset_infos asset_infos with
  | .error e => .error e
  | .ok _ =>
    if asset_infos.length ≠ 2 then
      .error (.Std "asset_infos must contain exactly two elements")
    else
      match init_params with
      | none => .error .InitParamsNotFound
      | some params =>
        if params.price_scale = 0 then
          .error (.Std "Initial price scale can not be zero")
        else
          match PoolParams.default.update_params
              { mid_fee := params.mid_fee, out_fee := params.out_fee,
                fee_gamma := params.fee_gamma,
                repeg_profit_threshold := params.repeg_profit_threshold,
                min_price_scale_delta := params.min_price_scale_delta,
                ma_half_time := params.ma_half_time } with
          | .error e => .error e
          | .ok pool_params =>
            match AmpGamma.new params.amp params.gamma with
            | .error e => .error e
            | .ok future =>
              let pool_state : PoolState :=
                { initial := AmpGamma.default, future := future,
                  future_time := now, initial_time := 0,
                  price_state :=
                    { oracle_price := params.price_scale,
                      last_price := params.price_scale,
                      price_scale := params.price_scale,
                      last_price_update := now,
                      xcp_profit := 0, xcp := 0 } }
              .ok { pair_info :=
                      { contract_addr := contract_addr, liquidity_token := "",
                        asset_infos := asset_infos },
                    factory_addr := factory_addr, block_time_last := now,
                    cumulative_price0 := 0, cumulative_price1 := 0,
                    pool_params := pool_params, pool_state := pool_state,
                    owner := none }

/-! ## Liquidity provision (`contract.rs::provide_liquidity`) -/

/-- Result of a successful `provide_liquidity`: the config that is saved,
the LP amount minted to the receiver, and the amount minted to the pair
contract itself (the locked minimum-liquidity reservation on the first
deposit, zero afterwards). -/
structure ProvideOutcome where
  config : Config
  mint_amount : Nat
  mint_to_contract : Nat
  deriving Repr, DecidableEq

/-- Embeds `contract.rs::provide_liquidity` (lines 356–521).  `pools` are
the pre-deposit pool balances in `Decimal256` form: the source reconstructs
them by subtracting already-credited native deposits from the queried
balances, and the CW20 `TransferFrom` messages it emits alongside are token
plumbing.  `amounts` and `precs` are the raw deposit amounts and the stored
decimal precisions of the two assets, in pool order; `total_share` is the
queried LP supply. -/
def provide_liquidity (c : Config) (now : Nat) (pools : List Dec)
    (amounts : List Nat) (precs : List Nat) (total_share : Nat) :
    Except ContractError ProvideOutcome :=
  match pools, amounts, precs with
  | [pool0, pool1], [amount0, amount1], [prec0, prec1] =>
    let deposits0 := uintToDec amount0 prec0
    let deposits1 := uintToDec amount1 prec1
    if deposits0 = 0 ∨ deposits1 = 0 then .error .InvalidZeroAmount
    else
      let ps := c.pool_state.price_state
      let new_xp0 := pool0 + deposits0
      let new_xp1 := decMul (pool1 + deposits1) ps.price_scale
      let amp_gamma := c.pool_state.get_amp_gamma now
      match calc_d [new_xp0, new_xp1] amp_gamma with
      | .error e => .error e
      | .ok new_d =>
        let xcp := get_xcp new_d ps.price_scale
        if total_share = 0 then
          match toUintChecked xcp LP_TOKEN_PRECISION with
          | .error e => .error (.Std e)
          | .ok raw =>
            if raw < MINIMUM_LIQUIDITY_AMOUNT then .error .MinimumLiquidityAmountError
            else
              let mint_amount := raw - MINIMUM_LIQUIDITY_AMOUNT
              if mint_amount = 0 then .error .MinimumLiquidityAmountError
              else
                let c' := { c with pool_state :=
                  { c.pool_state with price_state :=
                    { ps with xcp_profit := decOne, xcp := xcp } } }
                .ok { config := c', mint_amount := mint_amount,
                      mint_to_contract := MINIMUM_LIQUIDITY_AMOUNT }
        else
          let old_xp0 := pool0
          let old_xp1 := decMul pool1 ps.price_scale
          match calc_d [old_xp0, old_xp1] amp_gamma with
          | .error e => .error e
          | .ok old_d =>
            let ts := uintToDec total_share LP_TOKEN_PRECISION
            let share0 := decDiv (decMul ts new_d) old_d - ts
            let ideposits1 := decMul deposits1 ps.price_scale
            let share := decMul share0
              (decOne - calc_provide_fee [deposits0, ideposits1] [old_xp0, old_xp1] c.pool_params)
            let share_part := decDiv share (ts + share)
            let balanced0 := decMul new_xp0 share_part
            let balanced1 := decDiv (decMul new_xp1 share_part) ps.price_scale
            let diff0 := decAbsDiff deposits0 balanced0
            let diff1 := decAbsDiff deposits1 balanced1
            let afterPrice : Except ContractError Config :=
              if diff1 = 0 then .ok c
              else
                let last_price := decDiv diff0 diff1
                match c.pool_state.update_price c.pool_params now (ts + share)
                    [new_xp0, new_xp1] last_price with
                | .error e => .error e
                | .ok pool_state' =>
                  .ok (accumulate_prices now { c with pool_state := pool_state' } last_price)
            match afterPrice with
            | .error e => .error e
            | .ok c' =>
              match toUintChecked share LP_TOKEN_PRECISION with
              | .error e => .error (.Std e)
              | .ok mint_amount =>
                let c'' := { c' with pool_state :=
                  { c'.pool_state with price_state :=
                    { c'.pool_state.price_state with xcp := xcp } } }
                .ok { config := c'', mint_amount := mint_amount, mint_to_contract := 0 }
  | _, _, _ => .error (.InvalidNumberOfAssets 2)

/-! ## Liquidity withdrawal (`contract.rs::withdraw_liquidity`) -/

/-- Result of a successful `withdraw_liquidity`: the config that is saved,
the refunded integer amounts of the two assets, and the LP amount burned. -/
structure WithdrawOutcome where
  config : Config
  refund0 : Nat
  refund1 : Nat
  burn_amount : Nat
  deriving Repr, DecidableEq

/-- Embeds `contract.rs::withdraw_liquidity` (lines 530–615).  `info_sender`
is the caller of the CW20 hook (it must be the LP token contract); `pools`
are the queried pool balances in `Decimal256` form, `precs` the stored
asset precisions, `total_share` the queried LP supply, `amount` the LP
amount sent, and `assets` the per-asset withdraw request (non-empty means
imbalanced withdrawal). -/
def withdraw_liquidity (c : Config) (now : Nat) (info_sender : String)
    (pools : List Dec) (precs : List Nat) (total_share : Nat) (amount : Nat)
    (assets : List (AssetInfo × Nat)) : Except ContractError WithdrawOutcome :=
  if info_sender ≠ c.pair_info.liquidity_token then .error .Unauthorized
  else
    match pools, precs with
    | [pool0, pool1], [prec0, prec1] =>
      if assets.isEmpty then
        match get_share_in_assets [pool0, pool1] amount total_share with
        | [r0, r1] =>
          (let xs0 := pool0 - r0
           let xs1 := decMul (pool1 - r1) c.pool_state.price_state.price_scale
           match calc_d [xs0, xs1] (c.pool_state.get_amp_gamma now) with
           | .error e => .error e
           | .ok d =>
             let c' := { c with pool_state :=
               { c.pool_state with price_state :=
                 { c.pool_state.price_state with
                     xcp := get_xcp d c.pool_state.price_state.price_scale } } }
             match toUintChecked r0 prec0, toUintChecked r1 prec1 with
             | .ok u0, .ok u1 =>
               .ok { config := c', refund0 := u0, refund1 := u1, burn_amount := amount }
             | .error e, _ => .error (.Std e)
             | _, .error e => .error (.Std e))
        | _ => .error (.Std "Degenerate pool balances")
      else .error (.Std "Imbalanced withdraw is currently disabled")
    | _, _ => .error (.Std "Degenerate pool balances")

/-! ## Swap engine (`contract.rs::swap`, with `utils.rs` helpers modelled) -/

/-- The outcome record of `compute_swap`. -/
structure SwapResult where
  dy : Dec
  spread_fee : Dec
  maker_fee : Dec
  total_fee : Dec
  deriving Repr, DecidableEq

/-- Modelled from the spec: `compute_swap` (§4.5; `utils.rs` is absent).
Adds the offer amount on the offer side of the price-scale-normalized
balances, solves D at the old balances, derives the ideal curve output,
applies the fee model's rate to it, and splits the fee into the maker cut
and the pool-retained remainder.  Fails when the resulting ask-side balance
degenerates (insufficient liquidity). -/
def compute_swap (xs : List Dec) (offer_amount : Dec) (ask_ind : Nat)
    (c : Config) (now : Nat) (maker_fee_share : Dec) :
    Except ContractError SwapResult :=
  match xs with
  | [x0, x1] =>
    let ps := c.pool_state.price_state
    let t0 := x0
    let t1 := decMul x1 ps.price_scale
    let doff := if ask_ind = 0 then decMul offer_amount ps.price_scale else offer_amount
    let ag := c.pool_state.get_amp_gamma now
    match calc_d [t0, t1] ag with
    | .error e => .error e
    | .ok d =>
      let t_offer := if ask_ind = 0 then t1 else t0
      let t_ask := if ask_ind = 0 then t0 else t1
      let t_ask' := d - (t_offer + doff)
      if t_ask' = 0 then .error (.Std "Insufficient liquidity")
      else
        let dy_norm := t_ask - t_ask'
        let dy_ideal := if ask_ind = 1 then decDiv dy_norm ps.price_scale else dy_norm
        let fee_rate := c.pool_params.fee [t_offer + doff, t_ask']
        let total_fee := decMul fee_rate dy_ideal
        let maker_fee := decMul total_fee maker_fee_share
        .ok { dy := dy_ideal - total_fee, spread_fee := total_fee - maker_fee,
              maker_fee := maker_fee, total_fee := total_fee }
  | _ => .error (.Std "Degenerate pool balances")

/-- Modelled from the spec: `SwapResult::calc_last_prices` — the internal
`last_price` driving the repeg (gross of fees) and the `last_real_price`
exposed externally, both oriented as asset-0 per asset-1. -/
def SwapResult.calc_last_prices (r : SwapResult) (offer_amount : Dec)
    (offer_ind : Nat) : Dec × Dec :=
  let gross := r.dy + r.maker_fee + r.spread_fee
  let net := r.dy + r.maker_fee
  if offer_ind = 0 then (decDiv offer_amount gross, decDiv offer_amount net)
  else (decDiv gross offer_amount, decDiv net offer_amount)

/-- Modelled from the spec: `assert_max_spread` — the slippage guard-rail.
With a belief price, the expected return is the offer at that price and the
deviation of the actual return beyond the (capped) max spread fails the
swap; without one, the spread fee relative to the ideal return is used. -/
def assert_max_spread (belief_price max_spread : Option Dec)
    (offer_amount dy spread_fee : Dec) : Except ContractError Unit :=
  let ms := max_spread.getD DEFAULT_SLIPPAGE
  if MAX_ALLOWED_SLIPPAGE < ms then .error (.Std "Spread limit exceeded bounds")
  else
    match belief_price with
    | some bp =>
      let expected := decDiv offer_amount bp
      if dy < expected ∧ ms < decDiv (expected - dy) expected then
        .error .MaxSpreadAssertion
      else .ok ()
    | none =>
      if ms < decDiv spread_fee (dy + spread_fee) then .error .MaxSpreadAssertion
      else .ok ()

/-- Result of a successful `swap`: the config that is saved and the integer
amounts of the ask asset transferred out. -/
structure SwapOutcome where
  config : Config
  return_amount : Nat
  spread_amount : Nat
  maker_fee_amount : Nat
  deriving Repr, DecidableEq

/-- Embeds `contract.rs::swap` (lines 629–747).  `pools` are the queried
balances (the offer asset's already includes the incoming offer), `precs`
the stored precisions, both in pool order; `fee_to_maker` tells whether the
factory reports a fee address, and `maker_fee_rate` its maker fee rate. -/
def swap (c : Config) (now : Nat) (offer_info : AssetInfo) (offer_amount : Nat)
    (belief_price max_spread : Option Dec) (pools : List Dec) (precs : List Nat)
    (total_share : Nat) (maker_fee_rate : Dec) (fee_to_maker : Bool) :
    Except ContractError SwapOutcome :=
  match c.pair_info.asset_infos, pools, precs with
  | [info0, info1], [pool0, pool1], [prec0, prec1] =>
    let offer_ind := if offer_info = info0 then 0 else 1
    if offer_info ≠ info0 ∧ offer_info ≠ info1 then
      .error (.InvalidAsset offer_info.display)
    else
      let offer_prec := if offer_ind = 0 then prec0 else prec1
      let ask_prec := if offer_ind = 0 then prec1 else prec0
      let offer_dec := uintToDec offer_amount offer_prec
      let xs0 := if offer_ind = 0 then pool0 - offer_dec else pool0
      let xs1 := if offer_ind = 0 then pool1 else pool1 - offer_dec
      match before_swap_check [xs0, xs1] offer_dec with
      | .error e => .error e
      | .ok _ =>
        let maker_fee_share := if fee_to_maker then maker_fee_rate else 0
        let ask_ind := 1 - offer_ind
        match compute_swap [xs0, xs1] offer_dec ask_ind c now maker_fee_share with
        | .error e => .error e
        | .ok swap_result =>
          let ys0 := if offer_ind = 0 then xs0 + offer_dec
                     else xs0 - (swap_result.dy + swap_result.maker_fee)
          let ys1 := if offer_ind = 0 then xs1 - (swap_result.dy + swap_result.maker_fee)
                     else xs1 + offer_dec
          match assert_max_spread belief_price max_spread offer_dec
              swap_result.dy swap_result.spread_fee with
          | .error e => .error e
          | .ok _ =>
            match toUintChecked swap_result.spread_fee ask_prec with
            | .error e => .error (.Std e)
            | .ok spread_amount =>
              let ts := uintToDec total_share LP_TOKEN_PRECISION
              let prices := swap_result.calc_last_prices offer_dec offer_ind
              let zs1 := decMul ys1 c.pool_state.price_state.price_scale
              match c.pool_state.update_price c.pool_params now ts [ys0, zs1]
                  prices.1 with
              | .error e => .error e
              | .ok pool_state' =>
                match toUintChecked swap_result.dy ask_prec with
                | .error e => .error (.Std e)
                | .ok return_amount =>
                  match (if fee_to_maker then
                      toUintChecked swap_result.maker_fee ask_prec
                    else .ok 0) with
                  | .error e => .error (.Std e)
                  | .ok maker_fee_amount =>
                    let c' := accumulate_prices now
                      { c with pool_state := pool_state' } prices.2
                    .ok { config := c', return_amount := return_amount,
                          spread_amount := spread_amount,
                          maker_fee_amount := maker_fee_amount }
  | _, _, _ => .error (.Std "Degenerate pool balances")

/-! ## Execute dispatch (`contract.rs::execute` / `receive_cw20`) -/

/-- Embeds the `ExecuteMsg::Swap` arm of `contract.rs::execute`
(lines 204–261): the migration check, asset-info validation, the
native-only restriction on direct swaps, the sent-balance assertion and the
pool-membership check, then the swap itself.  `sent_amount` is the amount
of the offer denom attached to the call. -/
def executeSwap (c : Config) (migrating : Bool) (now : Nat)
    (offer_info : AssetInfo) (offer_amount sent_amount : Nat)
    (belief_price max_spread : Option Dec) (pools : List Dec)
    (precs : List Nat) (total_share : Nat) (maker_fee_rate : Dec)
    (fee_to_maker : Bool) : Except ContractError SwapOutcome :=
  if migrating then .error .PairIsNotMigrated
  else if ¬ offer_info.checkB then .error (.Std "Invalid asset info")
  else if ¬ offer_info.is_native_token then .error .Unauthorized
  else if sent_amount ≠ offer_amount then
    .error (.Std "Native token balance mismatch")
  else if offer_info ∉ c.pair_info.asset_infos then
    .error (.InvalidAsset offer_info.display)
  else
    swap c now offer_info offer_amount belief_price max_spread pools precs
      total_share maker_fee_rate fee_to_maker

/-- A CW20 hook message (`Cw20HookMsg`). -/
inductive Cw20HookMsg
  | swapHook (belief_price max_spread : Option Dec)
  | withdrawHook (assets : List (AssetInfo × Nat))
  deriving Repr, DecidableEq

/-- The outcome of a CW20 receive hook. -/
inductive ReceiveOutcome
  | swapOut (s : SwapOutcome)
  | withdrawOut (w : WithdrawOutcome)
  deriving Repr, DecidableEq

/-- Embeds `contract.rs::receive_cw20` (lines 305–340), reached through the
`ExecuteMsg::Receive` arm of `execute` (hence the migration check).
`info_sender` is the CW20 contract that called `Receive`; `cw20_amount` the
token amount it reports. -/
def receive_cw20 (c : Config) (migrating : Bool) (now : Nat)
    (info_sender : String) (cw20_amount : Nat) (hook : Cw20HookMsg)
    (pools : List Dec) (precs : List Nat) (total_share : Nat)
    (maker_fee_rate : Dec) (fee_to_maker : Bool) :
    Except ContractError ReceiveOutcome :=
  if migrating then .error .PairIsNotMigrated
  else
    match hook with
    | .swapHook belief_price max_spread =>
      match check_cw20_in_pool c info_sender with
      | .error e => .error e
      | .ok _ =>
        match swap c now (AssetInfo.token info_sender) cw20_amount belief_price
            max_spread pools precs total_share maker_fee_rate fee_to_maker with
        | .error e => .error e
        | .ok s => .ok (.swapOut s)
    | .withdrawHook assets =>
      match withdraw_liquidity c now info_sender pools precs total_share
          cw20_amount assets with
      | .error e => .error e
      | .ok w => .ok (.withdrawOut w)

/-! ## Config update (`contract.rs::update_config`) -/

/-- `ConcentratedPoolUpdateParams`. -/
inductive ConcentratedPoolUpdateParams
  | update (u : UpdatePoolParams)
  | promote (p : PromoteParams)
  | stopChangingAmpGamma
  deriving Repr, DecidableEq

/-- Embeds `contract.rs::update_config` (lines 752–783): the owner check and
the three parameter actions. -/
def update_config (c : Config) (now : Nat) (sender factory_owner : String)
    (params : ConcentratedPoolUpdateParams) : Except ContractError Config :=
  let owner := c.owner.getD factory_owner
  if sender ≠ owner then .error .Unauthorized
  else
    match params with
    | .update u =>
      match c.pool_params.update_params u with
      | .error e => .error e
      | .ok pp => .ok { c with pool_params := pp }
    | .promote p =>
      match c.pool_state.promote_params now p with
      | .error e => .error e
      | .ok s => .ok { c with pool_state := s }
    | .stopChangingAmpGamma => .ok { c with pool_state := c.pool_state.stop_promotion now }

/-! ## Persistence semantics -/

/-- The configuration persisted after a call, per the execution
environment's transactional semantics: the returned config on success, the
stored one untouched on any error. -/
def persisted (c : Config) (r : Except ContractError Config) : Config :=
  match r with
  | .ok c' => c'
  | .error _ => c

/-! ## Repeg sequences -/

/-- One observation fed to the repeg engine: the call time, LP supply, the
price-scale-normalized balances and the trade-implied price. -/
structure RepegInput where
  now : Nat
  total_share : Dec
  xs : List Dec
  last_price : Dec
  deriving Repr, DecidableEq

/-- One repeg evaluation at call granularity: the updated pool state when
`update_price` succeeds, the stored state untouched when the call aborts. -/
def repegStep (pp : PoolParams) (s : PoolState) (i : RepegInput) : PoolState :=
  match s.update_price pp i.now i.total_share i.xs i.last_price with
  | .ok s' => s'
  | .error _ => s

/-! ## Concrete fixtures used by witnesses -/

/-- A live pool configuration: the state reached by instantiating with
mid-range parameters at time 10 (LP token `lp` registered by the reply
handler) and providing the first `(1000, 1000)` deposit. -/
def cfgW : Config :=
  { pair_info := { contract_addr := "pair", liquidity_token := "lp",
                   asset_infos := [.native "uusd", .native "uluna"] },
    factory_addr := "factory", block_time_last := 10,
    cumulative_price0 := 0, cumulative_price1 := 0,
    pool_params := { mid_fee := 2600000000000000, out_fee := 4500000000000000,
                     fee_gamma := 10000000000000000,
                     repeg_profit_threshold := 100000000000000,
                     min_price_scale_delta := 1000000000000, ma_half_time := 600 },
    pool_state := { initial := AmpGamma.default,
                    future := { amp := 100000000000000000000, gamma := 100000000000000 },
                    future_time := 10, initial_time := 0,
                    price_state := { oracle_price := E18, last_price := E18,
                                     price_scale := E18, last_price_update := 10,
                                     xcp_profit := E18, xcp := 1000 * E18 } },
    owner := none }

/-- The same pool before any deposit (fresh `xcp_profit`/`xcp`). -/
def cfgW0 : Config :=
  { cfgW with pool_state := { cfgW.pool_state with price_state :=
      { cfgW.pool_state.price_state with xcp_profit := 0, xcp := 0 } } }

/-- Mid-range instantiation parameters. -/
def cppW : ConcentratedPoolParams :=
  { amp := 100 * E18, gamma := 100000000000000, mid_fee := 2600000000000000,
    out_fee := 4500000000000000, fee_gamma := 10000000000000000,
    repeg_profit_threshold := 100000000000000,
    min_price_scale_delta := 1000000000000,
    price_scale := E18, ma_half_time := 600 }

/-- A repeg observation on `cfgW` whose candidate clears the profit gate. -/
def repegInW : RepegInput :=
  { now := 60, total_share := 2000 * E18, xs := [1000 * E18, 1200 * E18],
    last_price := 12 * E18 / 10 }

/-- The pool state after feeding `repegInW` to the repeg engine of `cfgW`. -/
def poolStateW' : PoolState := repegStep cfgW.pool_params cfgW.pool_state repegInW

/-- The outcome of a concrete balanced withdrawal on the fixture pool. -/
def outW4 : WithdrawOutcome :=
  match withdraw_liquidity cfgW 40 cfgW.pair_info.liquidity_token
      [1000 * E18, 1000 * E18] [6, 6] 2000000000 100000000 [] with
  | .ok o => o
  | .error _ => { config := cfgW, refund0 := 0, refund1 := 0, burn_amount := 0 }

/-- The outcome of a concrete imbalanced `(100, 50)` deposit into the
fixture pool holding `(1000, 1000)` with LP supply 2000. -/
def outW7 : ProvideOutcome :=
  match provide_liquidity cfgW 30 [1000 * E18, 1000 * E18]
      [100000000, 50000000] [6, 6] 2000000000 with
  | .ok o => o
  | .error _ => { config := cfgW, mint_amount := 0, mint_to_contract := 0 }

/-- The configuration created by a concrete successful instantiation. -/
def cfgC5 : Config :=
  match instantiate 10 "pair" "factory"
      [.native "uusd", .native "uluna"] (some cppW) with
  | .ok c => c
  | .error _ => cfgW

/-! # Theorems -/

/-- `E18` is positive. -/
theorem E18_pos : 0 < E18 := by decide

/-- Scaling by `1 + t` in truncating fixed point never shrinks: the profit
gate's right-hand side is at least the current profit. -/
theorem le_decMul_one_add (a t : Dec) : a ≤ decMul a (decOne + t) := by
  unfold decMul decOne
  calc a = a * E18 / E18 := (Nat.mul_div_cancel a E18_pos).symm
    _ ≤ a * (E18 + t) / E18 :=
        Nat.div_le_div_right (Nat.mul_le_mul_left a (Nat.le_add_right _ _))

/-- A successful `update_price` never decreases `xcp_profit`. -/
theorem update_price_xcp_profit_le {s s' : PoolState} {pp : PoolParams}
    {now : Nat} {ts : Dec} {xs : List Dec} {lp : Dec}
    (h : s.update_price pp now ts xs lp = .ok s') :
    s.price_state.xcp_profit ≤ s'.price_state.xcp_profit := by
  simp only [PoolState.update_price] at h
  split at h
  · exact absurd h (by simp)
  · split at h
    · simp only [Except.ok.injEq] at h
      subst h; simp
    · split at h
      · exact absurd h (by simp)
      · split at h
        · simp only [Except.ok.injEq] at h
          subst h
          simp only
          exact le_trans (le_decMul_one_add _ _) (by assumption)
        · simp only [Except.ok.injEq] at h
          subst h; simp

/-- A successful `update_price` changes `price_scale` only when the profit
gate held: the new profit is at least the old one scaled by
`1 + repeg_profit_threshold`. -/
theorem update_price_scale_change_gate {s s' : PoolState} {pp : PoolParams}
    {now : Nat} {ts : Dec} {xs : List Dec} {lp : Dec}
    (h : s.update_price pp now ts xs lp = .ok s')
    (hne : s'.price_state.price_scale ≠ s.price_state.price_scale) :
    decMul s.price_state.xcp_profit (decOne + pp.repeg_profit_threshold) ≤
      s'.price_state.xcp_profit := by
  simp only [PoolState.update_price] at h
  split at h
  · exact absurd h (by simp)
  · split at h
    · simp only [Except.ok.injEq] at h
      subst h; simp at hne
    · split at h
      · exact absurd h (by simp)
      · split at h
        · simp only [Except.ok.injEq] at h
          subst h
          assumption
        · simp only [Except.ok.injEq] at h
          subst h; simp at hne

/-- A successful `update_price` always persists the blended oracle EMA, the
trade-implied `last_price` and the call time, whether or not the candidate
price scale was accepted. -/
theorem update_price_oracle_ema {s s' : PoolState} {pp : PoolParams}
    {now : Nat} {ts : Dec} {xs : List Dec} {lp : Dec}
    (h : s.update_price pp now ts xs lp = .ok s') :
    s'.price_state.oracle_price =
      decMul s.price_state.oracle_price
        (halfpow (now - s.price_state.last_price_update) pp.ma_half_time) +
      decMul lp (decOne -
        halfpow (now - s.price_state.last_price_update) pp.ma_half_time) ∧
    s'.price_state.last_price = lp ∧
    s'.price_state.last_price_update = now := by
  simp only [PoolState.update_price] at h
  split at h
  · exact absurd h (by simp)
  · split at h
    · simp only [Except.ok.injEq] at h
      subst h; simp
    · split at h
      · exact absurd h (by simp)
      · split at h
        · simp only [Except.ok.injEq] at h
          subst h; simp
        · simp only [Except.ok.injEq] at h
          subst h; simp

/-- One repeg evaluation never decreases `xcp_profit` (an aborted call
leaves the state untouched). -/
theorem repegStep_xcp_profit_le (pp : PoolParams) (s : PoolState)
    (i : RepegInput) :
    s.price_state.xcp_profit ≤ (repegStep pp s i).price_state.xcp_profit := by
  unfold repegStep
  split
  · exact update_price_xcp_profit_le (by assumption)
  · exact le_refl _

/-- Over any sequence of repeg evaluations, `xcp_profit` is
non-decreasing. -/
theorem repegSeq_xcp_profit_le (pp : PoolParams) :
    ∀ (l : List RepegInput) (s : PoolState),
      s.price_state.xcp_profit ≤ (l.foldl (repegStep pp) s).price_state.xcp_profit := by
  intro l
  induction l with
  | nil => intro s; exact le_refl _
  | cons i tl ih =>
    intro s
    exact le_trans (repegStep_xcp_profit_le pp s i) (ih (repegStep pp s i))

/-- C1: `xcp_profit` is monotonically non-decreasing across every
price-scale adjustment.  Whenever `update_price` succeeds, the candidate
price scale has been accepted only if the resulting profit is at least
`xcp_profit * (1 + repeg_profit_threshold)` (so a changed `price_scale`
implies the gate held), the profit never decreases, the oracle EMA is
persisted whether or not the candidate was accepted, and over any sequence
of swaps and repeg evaluations the profit is non-decreasing. -/
theorem pc_C1_xcp_profit_monotone (pp : PoolParams) (s s' : PoolState)
    (now : Nat) (ts : Dec) (xs : List Dec) (lp : Dec)
    (h : s.update_price pp now ts xs lp = .ok s') :
    s.price_state.xcp_profit ≤ s'.price_state.xcp_profit ∧
    (s'.price_state.price_scale ≠ s.price_state.price_scale →
      decMul s.price_state.xcp_profit (decOne + pp.repeg_profit_threshold) ≤
        s'.price_state.xcp_profit) ∧
    s'.price_state.oracle_price =
      decMul s.price_state.oracle_price
        (halfpow (now - s.price_state.last_price_update) pp.ma_half_time) +
      decMul lp (decOne -
        halfpow (now - s.price_state.last_price_update) pp.ma_half_time) ∧
    (∀ (l : List RepegInput) (s0 : PoolState),
      s0.price_state.xcp_profit ≤ (l.foldl (repegStep pp) s0).price_state.xcp_profit) :=
  ⟨update_price_xcp_profit_le h,
   fun hne => update_price_scale_change_gate h hne,
   (update_price_oracle_ema h).1,
   fun l s0 => repegSeq_xcp_profit_le pp l s0⟩

/-- Witness for C1: a concrete accepted repeg on the live fixture pool. -/
theorem pc_C1_witness :
    cfgW.pool_state.price_state.xcp_profit ≤ poolStateW'.price_state.xcp_profit ∧
    (poolStateW'.price_state.price_scale ≠ cfgW.pool_state.price_state.price_scale →
      decMul cfgW.pool_state.price_state.xcp_profit
          (decOne + cfgW.pool_params.repeg_profit_threshold) ≤
        poolStateW'.price_state.xcp_profit) ∧
    poolStateW'.price_state.oracle_price =
      decMul cfgW.pool_state.price_state.oracle_price
        (halfpow (60 - cfgW.pool_state.price_state.last_price_update)
          cfgW.pool_params.ma_half_time) +
      decMul (12 * E18 / 10) (decOne -
        halfpow (60 - cfgW.pool_state.price_state.last_price_update)
          cfgW.pool_params.ma_half_time) ∧
    (∀ (l : List RepegInput) (s0 : PoolState),
      s0.price_state.xcp_profit ≤
        (l.foldl (repegStep cfgW.pool_params) s0).price_state.xcp_profit) :=
  pc_C1_xcp_profit_monotone cfgW.pool_params cfgW.pool_state poolStateW'
    60 (2000 * E18) [1000 * E18, 1200 * E18] (12 * E18 / 10) rfl

/-- C3: every `withdraw_liquidity` call that supplies a non-empty per-asset
withdrawal list (an imbalanced withdrawal) fails with the
unsupported/disabled error, whatever amounts are requested, and nothing is
persisted. -/
theorem pc_C3_imbalanced_withdraw_disabled (c : Config) (now : Nat)
    (pool0 pool1 : Dec) (prec0 prec1 : Nat) (total_share amount : Nat)
    (assets : List (AssetInfo × Nat)) (hassets : assets ≠ []) :
    withdraw_liquidity c now c.pair_info.liquidity_token [pool0, pool1]
        [prec0, prec1] total_share amount assets =
      .error (.Std "Imbalanced withdraw is currently disabled") ∧
    persisted c ((withdraw_liquidity c now c.pair_info.liquidity_token
        [pool0, pool1] [prec0, prec1] total_share amount assets).map
        WithdrawOutcome.config) = c := by
  have hempty : assets.isEmpty = false := by
    cases assets with
    | nil => exact absurd rfl hassets
    | cons a tl => rfl
  have h1 : withdraw_liquidity c now c.pair_info.liquidity_token [pool0, pool1]
      [prec0, prec1] total_share amount assets =
      .error (.Std "Imbalanced withdraw is currently disabled") := by
    simp [withdraw_liquidity, hempty]
  exact ⟨h1, by rw [h1]; rfl⟩

/-- Witness for C3: a concrete imbalanced withdrawal request on the fixture
pool is rejected with the disabled error and persists nothing. -/
theorem pc_C3_witness :
    withdraw_liquidity cfgW 40 cfgW.pair_info.liquidity_token
        [1000 * E18, 1000 * E18] [6, 6] 2000000000 100000000
        [(.native "uusd", 5)] =
      .error (.Std "Imbalanced withdraw is currently disabled") ∧
    persisted cfgW ((withdraw_liquidity cfgW 40 cfgW.pair_info.liquidity_token
        [1000 * E18, 1000 * E18] [6, 6] 2000000000 100000000
        [(.native "uusd", 5)]).map WithdrawOutcome.config) = cfgW :=
  pc_C3_imbalanced_withdraw_disabled cfgW 40 (1000 * E18) (1000 * E18) 6 6
    2000000000 100000000 [(.native "uusd", 5)] (by simp)

/-- C4: a successful balanced withdrawal refunds each asset pro-rata
(`pool balance * burn_amount / total_share`), recomputes the stored `xcp`
from D solved at the reduced price-scale-normalized balances, and leaves
`oracle_price`, `last_price`, `price_scale`, `xcp_profit` and
`last_price_update` unchanged — `update_price` is never invoked on this
path. -/
theorem pc_C4_balanced_withdraw (c : Config) (now : Nat) (pool0 pool1 : Dec)
    (prec0 prec1 : Nat) (total_share amount : Nat) (out : WithdrawOutcome)
    (hts : total_share ≠ 0)
    (h : withdraw_liquidity c now c.pair_info.liquidity_token [pool0, pool1]
        [prec0, prec1] total_share amount [] = .ok out) :
    out.refund0 = toUintVal (decMul pool0 (decOfFraction amount total_share)) prec0 ∧
    out.refund1 = toUintVal (decMul pool1 (decOfFraction amount total_share)) prec1 ∧
    out.burn_amount = amount ∧
    (∃ d, calc_d
        [pool0 - decMul pool0 (decOfFraction amount total_share),
         decMul (pool1 - decMul pool1 (decOfFraction amount total_share))
           c.pool_state.price_state.price_scale]
        (c.pool_state.get_amp_gamma now) = .ok d ∧
      out.config = { c with pool_state := { c.pool_state with price_state :=
        { c.pool_state.price_state with
            xcp := get_xcp d c.pool_state.price_state.price_scale } } }) ∧
    out.config.pool_state.price_state.oracle_price =
      c.pool_state.price_state.oracle_price ∧
    out.config.pool_state.price_state.last_price =
      c.pool_state.price_state.last_price ∧
    out.config.pool_state.price_state.price_scale =
      c.pool_state.price_state.price_scale ∧
    out.config.pool_state.price_state.xcp_profit =
      c.pool_state.price_state.xcp_profit ∧
    out.config.pool_state.price_state.last_price_update =
      c.pool_state.price_state.last_price_update := by
  simp only [withdraw_liquidity, ne_eq, not_true_eq_false, if_false,
    List.isEmpty_nil, ite_true, ite_false, get_share_in_assets, List.map,
    if_neg hts] at h
  split at h
  · exact absurd h (by simp)
  · rename_i d hd
    split at h
    · rename_i u0 u1 hu0 hu1
      simp only [Except.ok.injEq] at h
      subst h
      refine ⟨?_, ?_, rfl, ⟨_, hd, rfl⟩, rfl, rfl, rfl, rfl, rfl⟩
      · simp only [toUintChecked] at hu0
        split at hu0
        · simp only [Except.ok.injEq] at hu0; exact hu0.symm
        · exact absurd hu0 (by simp)
      · simp only [toUintChecked] at hu1
        split at hu1
        · simp only [Except.ok.injEq] at hu1; exact hu1.symm
        · exact absurd hu1 (by simp)
    · exact absurd h (by simp)
    · exact absurd h (by simp)

/-- Witness for C4: the concrete balanced withdrawal of 100 LP out of 2000
on the fixture pool refunds pro-rata and only touches `xcp`. -/
theorem pc_C4_witness :
    outW4.refund0 = toUintVal (decMul (1000 * E18) (decOfFraction 100000000 2000000000)) 6 ∧
    outW4.refund1 = toUintVal (decMul (1000 * E18) (decOfFraction 100000000 2000000000)) 6 ∧
    outW4.burn_amount = 100000000 ∧
    (∃ d, calc_d
        [1000 * E18 - decMul (1000 * E18) (decOfFraction 100000000 2000000000),
         decMul (1000 * E18 - decMul (1000 * E18) (decOfFraction 100000000 2000000000))
           cfgW.pool_state.price_state.price_scale]
        (cfgW.pool_state.get_amp_gamma 40) = .ok d ∧
      outW4.config = { cfgW with pool_state := { cfgW.pool_state with price_state :=
        { cfgW.pool_state.price_state with
            xcp := get_xcp d cfgW.pool_state.price_state.price_scale } } }) ∧
    outW4.config.pool_state.price_state.oracle_price =
      cfgW.pool_state.price_state.oracle_price ∧
    outW4.config.pool_state.price_state.last_price =
      cfgW.pool_state.price_state.last_price ∧
    outW4.config.pool_state.price_state.price_scale =
      cfgW.pool_state.price_state.price_scale ∧
    outW4.config.pool_state.price_state.xcp_profit =
      cfgW.pool_state.price_state.xcp_profit ∧
    outW4.config.pool_state.price_state.last_price_update =
      cfgW.pool_state.price_state.last_price_update :=
  pc_C4_balanced_withdraw cfgW 40 (1000 * E18) (1000 * E18) 6 6 2000000000
    100000000 outW4 (by decide) rfl

/-- C9: `provide_liquidity` fails with the dedicated zero-amount error
whenever either deposit converts to zero at its asset precision, before any
balance or price-state mutation is persisted. -/
theorem pc_C9_zero_amount_provide (c : Config) (now : Nat) (pool0 pool1 : Dec)
    (amount0 amount1 prec0 prec1 total_share : Nat)
    (h : uintToDec amount0 prec0 = 0 ∨ uintToDec amount1 prec1 = 0) :
    provide_liquidity c now [pool0, pool1] [amount0, amount1] [prec0, prec1]
        total_share = .error .InvalidZeroAmount ∧
    persisted c ((provide_liquidity c now [pool0, pool1] [amount0, amount1]
        [prec0, prec1] total_share).map ProvideOutcome.config) = c := by
  have h1 : provide_liquidity c now [pool0, pool1] [amount0, amount1]
      [prec0, prec1] total_share = .error .InvalidZeroAmount := by
    simp only [provide_liquidity]
    rw [if_pos h]
  exact ⟨h1, by rw [h1]; rfl⟩

/-- Witness for C9: a concrete zero first-asset deposit is rejected. -/
theorem pc_C9_witness :
    provide_liquidity cfgW 30 [1000 * E18, 1000 * E18] [0, 50000000] [6, 6]
        2000000000 = .error .InvalidZeroAmount ∧
    persisted cfgW ((provide_liquidity cfgW 30 [1000 * E18, 1000 * E18]
        [0, 50000000] [6, 6] 2000000000).map ProvideOutcome.config) = cfgW :=
  pc_C9_zero_amount_provide cfgW 30 (1000 * E18) (1000 * E18) 0 50000000 6 6
    2000000000 (by left; decide)

/-- C2: the first liquidity provision into an empty pool (zero LP supply)
mints exactly the xcp derived from the new invariant D converted to
LP-token precision minus the fixed minimum-liquidity reservation (which is
minted to the pair contract itself), fails with the minimum-liquidity
error whenever that subtraction underflows or yields zero, and sets
`xcp_profit` to exactly 1. -/
theorem pc_C2_first_provide (c : Config) (now : Nat) (pool0 pool1 : Dec)
    (amount0 amount1 prec0 prec1 : Nat) (d : Dec)
    (h0 : uintToDec amount0 prec0 ≠ 0) (h1 : uintToDec amount1 prec1 ≠ 0)
    (hd : calc_d [pool0 + uintToDec amount0 prec0,
        decMul (pool1 + uintToDec amount1 prec1)
          c.pool_state.price_state.price_scale]
        (c.pool_state.get_amp_gamma now) = .ok d) :
    (toUintVal (get_xcp d c.pool_state.price_state.price_scale)
        LP_TOKEN_PRECISION ≤ MINIMUM_LIQUIDITY_AMOUNT →
      provide_liquidity c now [pool0, pool1] [amount0, amount1] [prec0, prec1] 0 =
        .error .MinimumLiquidityAmountError) ∧
    (MINIMUM_LIQUIDITY_AMOUNT <
        toUintVal (get_xcp d c.pool_state.price_state.price_scale)
          LP_TOKEN_PRECISION →
      toUintVal (get_xcp d c.pool_state.price_state.price_scale)
          LP_TOKEN_PRECISION < 2 ^ 128 →
      provide_liquidity c now [pool0, pool1] [amount0, amount1] [prec0, prec1] 0 =
        .ok { config := { c with pool_state := { c.pool_state with price_state :=
                { c.pool_state.price_state with
                    xcp_profit := decOne,
                    xcp := get_xcp d c.pool_state.price_state.price_scale } } },
              mint_amount :=
                toUintVal (get_xcp d c.pool_state.price_state.price_scale)
                  LP_TOKEN_PRECISION - MINIMUM_LIQUIDITY_AMOUNT,
              mint_to_contract := MINIMUM_LIQUIDITY_AMOUNT }) := by
  constructor
  · intro hle
    simp only [provide_liquidity]
    rw [if_neg (by push_neg; exact ⟨h0, h1⟩)]
    simp only [hd, toUintChecked, ite_true]
    rw [if_pos (lt_of_le_of_lt hle (by decide))]
    simp only []
    by_cases hlt : toUintVal (get_xcp d c.pool_state.price_state.price_scale)
        LP_TOKEN_PRECISION < MINIMUM_LIQUIDITY_AMOUNT
    · rw [if_pos hlt]
    · rw [if_neg hlt, if_pos (by omega)]
  · intro hgt hfit
    simp only [provide_liquidity]
    rw [if_neg (by push_neg; exact ⟨h0, h1⟩)]
    simp only [hd, toUintChecked, ite_true]
    rw [if_pos hfit]
    simp only []
    rw [if_neg (by omega), if_neg (by
      have : (0 : Nat) < MINIMUM_LIQUIDITY_AMOUNT := by decide
      omega)]

/-- Witness for C2: the concrete first `(1000, 1000)` deposit into the
empty fixture pool at `price_scale = 1`. -/
theorem pc_C2_witness :
    (toUintVal (get_xcp (2000 * E18) cfgW0.pool_state.price_state.price_scale)
        LP_TOKEN_PRECISION ≤ MINIMUM_LIQUIDITY_AMOUNT →
      provide_liquidity cfgW0 20 [0, 0] [1000000000, 1000000000] [6, 6] 0 =
        .error .MinimumLiquidityAmountError) ∧
    (MINIMUM_LIQUIDITY_AMOUNT <
        toUintVal (get_xcp (2000 * E18) cfgW0.pool_state.price_state.price_scale)
          LP_TOKEN_PRECISION →
      toUintVal (get_xcp (2000 * E18) cfgW0.pool_state.price_state.price_scale)
          LP_TOKEN_PRECISION < 2 ^ 128 →
      provide_liquidity cfgW0 20 [0, 0] [1000000000, 1000000000] [6, 6] 0 =
        .ok { config := { cfgW0 with pool_state := { cfgW0.pool_state with price_state :=
                { cfgW0.pool_state.price_state with
                    xcp_profit := decOne,
                    xcp := get_xcp (2000 * E18) cfgW0.pool_state.price_state.price_scale } } },
              mint_amount :=
                toUintVal (get_xcp (2000 * E18) cfgW0.pool_state.price_state.price_scale)
                  LP_TOKEN_PRECISION - MINIMUM_LIQUIDITY_AMOUNT,
              mint_to_contract := MINIMUM_LIQUIDITY_AMOUNT }) :=
  pc_C2_first_provide cfgW0 20 0 0 1000000000 1000000000 6 6 (2000 * E18)
    (by decide) (by decide) rfl

/-- C7: a liquidity provision into a non-empty pool mints
`(total_share * new_D / old_D - total_share) * (1 - provision_fee)`
converted to LP precision (the subtraction saturating as in the source),
where `new_D`/`old_D` are solved at the updated and current
price-scale-normalized balances and the provision fee comes from the
deposit's imbalance against the pool's ratio; the repeg engine
(`update_price`) runs exactly when the deposit is imbalanced (the
price-scale-weighted difference from the balanced share is non-zero). -/
theorem pc_C7_provide_nonempty (c : Config) (now : Nat) (pool0 pool1 : Dec)
    (amount0 amount1 prec0 prec1 total_share : Nat) (new_d old_d : Dec)
    (out : ProvideOutcome) (hts : total_share ≠ 0)
    (hdnew : calc_d [pool0 + uintToDec amount0 prec0,
        decMul (pool1 + uintToDec amount1 prec1)
          c.pool_state.price_state.price_scale]
        (c.pool_state.get_amp_gamma now) = .ok new_d)
    (hdold : calc_d [pool0, decMul pool1 c.pool_state.price_state.price_scale]
        (c.pool_state.get_amp_gamma now) = .ok old_d)
    (h : provide_liquidity c now [pool0, pool1] [amount0, amount1]
        [prec0, prec1] total_share = .ok out) :
    let ps := c.pool_state.price_state
    let dep0 := uintToDec amount0 prec0
    let dep1 := uintToDec amount1 prec1
    let new_xp0 := pool0 + dep0
    let new_xp1 := decMul (pool1 + dep1) ps.price_scale
    let ts := uintToDec total_share LP_TOKEN_PRECISION
    let share := decMul (decDiv (decMul ts new_d) old_d - ts)
      (decOne - calc_provide_fee [dep0, decMul dep1 ps.price_scale]
        [pool0, decMul pool1 ps.price_scale] c.pool_params)
    let share_part := decDiv share (ts + share)
    let diff0 := decAbsDiff dep0 (decMul new_xp0 share_part)
    let diff1 := decAbsDiff dep1 (decDiv (decMul new_xp1 share_part) ps.price_scale)
    out.mint_amount = toUintVal share LP_TOKEN_PRECISION ∧
    out.mint_to_contract = 0 ∧
    (diff1 = 0 → out.config = { c with pool_state := { c.pool_state with
        price_state := { ps with xcp := get_xcp new_d ps.price_scale } } }) ∧
    (diff1 ≠ 0 → ∃ s', c.pool_state.update_price c.pool_params now (ts + share)
        [new_xp0, new_xp1] (decDiv diff0 diff1) = .ok s' ∧
      out.config =
        (let ca := accumulate_prices now { c with pool_state := s' }
            (decDiv diff0 diff1)
         { ca with pool_state := { ca.pool_state with price_state :=
             { ca.pool_state.price_state with
                 xcp := get_xcp new_d ps.price_scale } } })) := by
  intro ps dep0 dep1 new_xp0 new_xp1 ts share share_part diff0 diff1
  simp only [provide_liquidity] at h
  split at h
  · exact absurd h (by simp)
  · rw [hdnew] at h
    simp only [] at h
    rw [hdold] at h
    simp only [] at h
    split at h
    · exact absurd h (by simp)
    · rename_i c' hok
      split at h
      · exact absurd h (by simp)
      · rename_i m hm
        simp only [Except.ok.injEq] at h
        subst h
        have hmv : m = toUintVal share LP_TOKEN_PRECISION := by
          simp only [toUintChecked] at hm
          split at hm
          · simp only [Except.ok.injEq] at hm; exact hm.symm
          · exact absurd hm (by simp)
        split at hok
        · -- balanced deposit: update_price not invoked
          rename_i hdiff
          simp only [Except.ok.injEq] at hok
          subst hok
          exact ⟨hmv, rfl, fun _ => rfl, fun hne => absurd hdiff hne⟩
        · -- imbalanced deposit: update_price invoked
          rename_i hdiff
          split at hok
          · exact absurd hok (by simp)
          · rename_i s' hup
            simp only [Except.ok.injEq] at hok
            subst hok
            exact ⟨hmv, rfl, fun heq => absurd heq hdiff, fun _ => ⟨s', hup, rfl⟩⟩

/-- Witness for C7: the concrete imbalanced `(100, 50)` deposit into the
live fixture pool. -/
theorem pc_C7_witness :
    let ps := cfgW.pool_state.price_state
    let dep0 := uintToDec 100000000 6
    let dep1 := uintToDec 50000000 6
    let new_xp0 := 1000 * E18 + dep0
    let new_xp1 := decMul (1000 * E18 + dep1) ps.price_scale
    let ts := uintToDec 2000000000 LP_TOKEN_PRECISION
    let share := decMul (decDiv (decMul ts (2150 * E18)) (2000 * E18) - ts)
      (decOne - calc_provide_fee [dep0, decMul dep1 ps.price_scale]
        [1000 * E18, decMul (1000 * E18) ps.price_scale] cfgW.pool_params)
    let share_part := decDiv share (ts + share)
    let diff0 := decAbsDiff dep0 (decMul new_xp0 share_part)
    let diff1 := decAbsDiff dep1 (decDiv (decMul new_xp1 share_part) ps.price_scale)
    outW7.mint_amount = toUintVal share LP_TOKEN_PRECISION ∧
    outW7.mint_to_contract = 0 ∧
    (diff1 = 0 → outW7.config = { cfgW with pool_state := { cfgW.pool_state with
        price_state := { ps with xcp := get_xcp (2150 * E18) ps.price_scale } } }) ∧
    (diff1 ≠ 0 → ∃ s', cfgW.pool_state.update_price cfgW.pool_params 30 (ts + share)
        [new_xp0, new_xp1] (decDiv diff0 diff1) = .ok s' ∧
      outW7.config =
        (let ca := accumulate_prices 30 { cfgW with pool_state := s' }
            (decDiv diff0 diff1)
         { ca with pool_state := { ca.pool_state with price_state :=
             { ca.pool_state.price_state with
                 xcp := get_xcp (2150 * E18) ps.price_scale } } })) :=
  pc_C7_provide_nonempty cfgW 30 (1000 * E18) (1000 * E18) 100000000 50000000
    6 6 2000000000 (2150 * E18) (2000 * E18) outW7 (by decide) rfl rfl rfl

/-- C5 (amended): at pool instantiation the created state has
`initial_time = 0` and `future_time` equal to the instantiation time, so no
promotion is in progress (`get_amp_gamma` already returns `future` at every
later block time); `price_scale`, `oracle_price` and `last_price` all equal
the caller-supplied initial price scale.  However `initial` is
`AmpGamma::default()` — the zero pair — and `future` the validated supplied
pair, so `initial ≠ future` (the supplied amp is at least `AMP_MIN > 0`). -/
theorem pc_C5_instantiate_state (now : Nat) (ca fa : String)
    (infos : List AssetInfo) (p : ConcentratedPoolParams) (c : Config)
    (h : instantiate now ca fa infos (some p) = .ok c) :
    c.pool_state.price_state.price_scale = p.price_scale ∧
    c.pool_state.price_state.oracle_price = p.price_scale ∧
    c.pool_state.price_state.last_price = p.price_scale ∧
    c.pool_state.initial_time = 0 ∧
    c.pool_state.future_time = now ∧
    c.pool_state.initial = AmpGamma.default ∧
    c.pool_state.future = { amp := p.amp, gamma := p.gamma } ∧
    (∀ t, now ≤ t → t ≠ 0 → c.pool_state.get_amp_gamma t = c.pool_state.future) ∧
    c.pool_state.initial ≠ c.pool_state.future := by
  simp only [instantiate] at h
  split at h
  · exact absurd h (by simp)
  · split at h
    · exact absurd h (by simp)
    · split at h
      · exact absurd h (by simp)
      · split at h
        · exact absurd h (by simp)
        · rename_i pp hpp
          split at h
          · exact absurd h (by simp)
          · rename_i future hnew
            simp only [AmpGamma.new] at hnew
            split at hnew
            · rename_i hbounds
              simp only [Except.ok.injEq] at hnew h
              subst hnew
              subst h
              refine ⟨rfl, rfl, rfl, rfl, rfl, rfl, rfl, ?_, ?_⟩
              · intro t ht ht0
                simp only [PoolState.get_amp_gamma]
                rw [if_neg (by omega), if_pos ht]
              · intro heq
                have hamp : (0 : Dec) = p.amp := congrArg AmpGamma.amp heq
                have h1 : AMP_MIN ≤ p.amp := hbounds.1
                rw [← hamp] at h1
                exact absurd h1 (by decide)
            · exact absurd hnew (by simp)

/-- Counterexample for C5 as stated: a successful instantiation with
mid-range parameters whose created `initial` and `future` amp/gamma pairs
differ. -/
theorem pc_C5_counterexample :
    (instantiate 10 "pair" "factory"
        [AssetInfo.native "uusd", AssetInfo.native "uluna"] (some cppW)).map
      (fun c => decide (c.pool_state.initial = c.pool_state.future)) =
      .ok false := rfl

/-- Witness for C5 (amended): the concrete mid-range instantiation. -/
theorem pc_C5_witness :
    cfgC5.pool_state.price_state.price_scale = cppW.price_scale ∧
    cfgC5.pool_state.price_state.oracle_price = cppW.price_scale ∧
    cfgC5.pool_state.price_state.last_price = cppW.price_scale ∧
    cfgC5.pool_state.initial_time = 0 ∧
    cfgC5.pool_state.future_time = 10 ∧
    cfgC5.pool_state.initial = AmpGamma.default ∧
    cfgC5.pool_state.future = { amp := cppW.amp, gamma := cppW.gamma } ∧
    (∀ t, 10 ≤ t → t ≠ 0 →
      cfgC5.pool_state.get_amp_gamma t = cfgC5.pool_state.future) ∧
    cfgC5.pool_state.initial ≠ cfgC5.pool_state.future :=
  pc_C5_instantiate_state 10 "pair" "factory"
    [.native "uusd", .native "uluna"] cppW cfgC5 rfl

/-- C6: `instantiate` fails whenever the supplied initial price scale is
zero (with that specific error once the asset checks pass), and succeeds —
creating a pool state — exactly when every supplied parameter passes its
bound-range validation. -/
theorem pc_C6_instantiate_validation (now : Nat) (ca fa : String)
    (infos : List AssetInfo) (p : ConcentratedPoolParams)
    (hinfos : check_asset_infos infos = .ok ()) (hlen : infos.length = 2) :
    (p.price_scale = 0 →
      instantiate now ca fa infos (some p) =
        .error (.Std "Initial price scale can not be zero")) ∧
    ((∃ c, instantiate now ca fa infos (some p) = .ok c) ↔
      (p.price_scale ≠ 0 ∧
       MIN_FEE ≤ p.mid_fee ∧ p.mid_fee ≤ p.out_fee ∧ p.out_fee ≤ MAX_FEE ∧
       FEE_GAMMA_MIN ≤ p.fee_gamma ∧ p.fee_gamma ≤ FEE_GAMMA_MAX ∧
       REPEG_PROFIT_THRESHOLD_MIN ≤ p.repeg_profit_threshold ∧
       p.repeg_profit_threshold ≤ REPEG_PROFIT_THRESHOLD_MAX ∧
       PRICE_SCALE_DELTA_MIN ≤ p.min_price_scale_delta ∧
       p.min_price_scale_delta ≤ PRICE_SCALE_DELTA_MAX ∧
       p.ma_half_time ≤ MA_HALF_TIME_MAX ∧
       AMP_MIN ≤ p.amp ∧ p.amp ≤ AMP_MAX ∧
       GAMMA_MIN ≤ p.gamma ∧ p.gamma ≤ GAMMA_MAX)) := by
  constructor
  · intro hz
    simp only [instantiate, hinfos]
    rw [if_neg (by simp [hlen])]
    rw [if_pos hz]
  · constructor
    · rintro ⟨c, hc⟩
      simp only [instantiate, hinfos] at hc
      rw [if_neg (by simp [hlen])] at hc
      by_cases hz : p.price_scale = 0
      · rw [if_pos hz] at hc
        exact absurd hc (by simp)
      · rw [if_neg hz] at hc
        simp only [PoolParams.update_params, AmpGamma.new] at hc
        split at hc
        · exact absurd hc (by simp)
        · rename_i pp hpp
          split at hc
          · exact absurd hc (by simp)
          · rename_i ag hag
            split at hpp
            · rename_i hub
              split at hag
              · rename_i hag2
                obtain ⟨u1, u2, u3, u4, u5, u6, u7, u8, u9, u10⟩ := hub
                obtain ⟨a1, a2, a3, a4⟩ := hag2
                exact ⟨hz, u1, u2, u3, u4, u5, u6, u7, u8, u9, u10, a1, a2, a3, a4⟩
              · exact absurd hag (by simp)
            · exact absurd hpp (by simp)
    · rintro ⟨hz, u1, u2, u3, u4, u5, u6, u7, u8, u9, u10, a1, a2, a3, a4⟩
      have hstep : instantiate now ca fa infos (some p) =
          .ok { pair_info := { contract_addr := ca, liquidity_token := "",
                               asset_infos := infos },
                factory_addr := fa, block_time_last := now,
                cumulative_price0 := 0, cumulative_price1 := 0,
                pool_params := { mid_fee := p.mid_fee, out_fee := p.out_fee,
                                 fee_gamma := p.fee_gamma,
                                 repeg_profit_threshold := p.repeg_profit_threshold,
                                 min_price_scale_delta := p.min_price_scale_delta,
                                 ma_half_time := p.ma_half_time },
                pool_state := { initial := AmpGamma.default,
                                future := { amp := p.amp, gamma := p.gamma },
                                future_time := now, initial_time := 0,
                                price_state := { oracle_price := p.price_scale,
                                                 last_price := p.price_scale,
                                                 price_scale := p.price_scale,
                                                 last_price_update := now,
                                                 xcp_profit := 0, xcp := 0 } },
                owner := none } := by
        simp only [instantiate, hinfos]
        rw [if_neg (by simp [hlen]), if_neg hz]
        simp only [PoolParams.update_params, AmpGamma.new]
        rw [if_pos ⟨u1, u2, u3, u4, u5, u6, u7, u8, u9, u10⟩]
        simp only []
        rw [if_pos ⟨a1, a2, a3, a4⟩]
      exact ⟨_, hstep⟩

/-- Witness for C6: the concrete mid-range parameters, nonzero price scale,
and valid asset infos instantiate successfully; the zero-price-scale
implication holds vacuously there. -/
theorem pc_C6_witness :
    (cppW.price_scale = 0 →
      instantiate 10 "pair" "factory" [.native "uusd", .native "uluna"]
        (some cppW) = .error (.Std "Initial price scale can not be zero")) ∧
    ((∃ c, instantiate 10 "pair" "factory" [.native "uusd", .native "uluna"]
        (some cppW) = .ok c) ↔
      (cppW.price_scale ≠ 0 ∧
       MIN_FEE ≤ cppW.mid_fee ∧ cppW.mid_fee ≤ cppW.out_fee ∧
       cppW.out_fee ≤ MAX_FEE ∧
       FEE_GAMMA_MIN ≤ cppW.fee_gamma ∧ cppW.fee_gamma ≤ FEE_GAMMA_MAX ∧
       REPEG_PROFIT_THRESHOLD_MIN ≤ cppW.repeg_profit_threshold ∧
       cppW.repeg_profit_threshold ≤ REPEG_PROFIT_THRESHOLD_MAX ∧
       PRICE_SCALE_DELTA_MIN ≤ cppW.min_price_scale_delta ∧
       cppW.min_price_scale_delta ≤ PRICE_SCALE_DELTA_MAX ∧
       cppW.ma_half_time ≤ MA_HALF_TIME_MAX ∧
       AMP_MIN ≤ cppW.amp ∧ cppW.amp ≤ AMP_MAX ∧
       GAMMA_MIN ≤ cppW.gamma ∧ cppW.gamma ≤ GAMMA_MAX)) :=
  pc_C6_instantiate_validation 10 "pair" "factory"
    [.native "uusd", .native "uluna"] cppW rfl (by decide)

/-- C8: every state-changing entry point is atomic at call granularity —
each call either succeeds (persisting the single config it returns) or
fails, and on any failure the persisted configuration is exactly the stored
one: no partially updated state is ever observable. -/
theorem pc_C8_atomicity :
    ∀ (c : Config) (now : Nat) (pools : List Dec) (amounts precs : List Nat)
      (total_share : Nat) (info_sender : String) (amount : Nat)
      (assets : List (AssetInfo × Nat)) (offer_info : AssetInfo)
      (offer_amount : Nat) (belief_price max_spread : Option Dec)
      (maker_fee_rate : Dec) (fee_to_maker : Bool)
      (sender factory_owner : String) (params : ConcentratedPoolUpdateParams),
    ((∃ o, provide_liquidity c now pools amounts precs total_share = .ok o) ∨
      persisted c ((provide_liquidity c now pools amounts precs
        total_share).map ProvideOutcome.config) = c) ∧
    ((∃ o, withdraw_liquidity c now info_sender pools precs total_share
        amount assets = .ok o) ∨
      persisted c ((withdraw_liquidity c now info_sender pools precs
        total_share amount assets).map WithdrawOutcome.config) = c) ∧
    ((∃ o, swap c now offer_info offer_amount belief_price max_spread pools
        precs total_share maker_fee_rate fee_to_maker = .ok o) ∨
      persisted c ((swap c now offer_info offer_amount belief_price
        max_spread pools precs total_share maker_fee_rate
        fee_to_maker).map SwapOutcome.config) = c) ∧
    ((∃ c', update_config c now sender factory_owner params = .ok c') ∨
      persisted c (update_config c now sender factory_owner params) = c) := by
  intro c now pools amounts precs total_share info_sender amount assets
    offer_info offer_amount belief_price max_spread maker_fee_rate
    fee_to_maker sender factory_owner params
  refine ⟨?_, ?_, ?_, ?_⟩
  · cases hr : provide_liquidity c now pools amounts precs total_share with
    | ok o => exact Or.inl ⟨o, rfl⟩
    | error e => right; rfl
  · cases hr : withdraw_liquidity c now info_sender pools precs total_share
        amount assets with
    | ok o => exact Or.inl ⟨o, rfl⟩
    | error e => right; rfl
  · cases hr : swap c now offer_info offer_amount belief_price max_spread
        pools precs total_share maker_fee_rate fee_to_maker with
    | ok o => exact Or.inl ⟨o, rfl⟩
    | error e => right; rfl
  · cases hr : update_config c now sender factory_owner params with
    | ok c' => exact Or.inl ⟨c', rfl⟩
    | error e => right; rfl

/-- C10: the direct `ExecuteMsg::Swap` entry point accepts only
native-token offers — a CW20 offer asset is rejected as `Unauthorized`
(provided the pair is not flagged for migration and the address validates);
CW20 swaps must arrive through the `Receive` hook, which rejects any
sending token contract that is not one of the pool's two assets. -/
theorem pc_C10_direct_swap_native_only (c : Config) (migrating : Bool)
    (now : Nat) (addr : String) (offer_amount sent_amount : Nat)
    (belief_price max_spread : Option Dec) (pools : List Dec)
    (precs : List Nat) (total_share : Nat) (maker_fee_rate : Dec)
    (fee_to_maker : Bool) (hmig : migrating = false)
    (haddr : validAddr addr = true) :
    executeSwap c migrating now (.token addr) offer_amount sent_amount
      belief_price max_spread pools precs total_share maker_fee_rate
      fee_to_maker = .error .Unauthorized ∧
    (∀ (tok : String) (amt : Nat) (bp ms : Option Dec),
      AssetInfo.token tok ∉ c.pair_info.asset_infos →
      receive_cw20 c migrating now tok amt (.swapHook bp ms) pools precs
        total_share maker_fee_rate fee_to_maker = .error .Unauthorized) := by
  subst hmig
  constructor
  · simp [executeSwap, AssetInfo.checkB, AssetInfo.is_native_token, haddr]
  · intro tok amt bp ms hnot
    simp only [receive_cw20, check_cw20_in_pool, Bool.false_eq_true,
      if_false, ite_false]
    rw [if_neg hnot]

/-- Witness for C10: a concrete CW20 direct-swap attempt on the fixture
pool is rejected, and the hook path rejects a foreign token contract. -/
theorem pc_C10_witness :
    executeSwap cfgW false 50 (.token "tok") 100000000 100000000 none none
      [1100 * E18, 1000 * E18] [6, 6] 2000000000 (E18 / 10) true =
      .error .Unauthorized ∧
    (∀ (tok : String) (amt : Nat) (bp ms : Option Dec),
      AssetInfo.token tok ∉ cfgW.pair_info.asset_infos →
      receive_cw20 cfgW false 50 tok amt (.swapHook bp ms)
        [1100 * E18, 1000 * E18] [6, 6] 2000000000 (E18 / 10) true =
        .error .Unauthorized) :=
  pc_C10_direct_swap_native_only cfgW false 50 "tok" 100000000 100000000
    none none [1100 * E18, 1000 * E18] [6, 6] 2000000000 (E18 / 10) true
    rfl (by decide)

end PairConcentrated
